import Mathlib

/-!
Verification of the voyeurs synchronization engine: a shallow embedding of
the packet codec (src/proto.rs), the per-connection command dispatcher
(src/client_message_handler.rs) and the player event bridge
(src/mpv_event_handler.rs), together with theorems checking the
specification claims against these definitions.

Modelling conventions:
- Machine integers are Nat: bytes are Nat values below 256, u16/u64 values
  are Nat values below 2 to the 16 / 2 to the 64.
- Rust f64 values are represented by their 64-bit IEEE-754 bit pattern
  (a Nat below 2 to the 64); to_be_bytes / from_be_bytes act on that
  pattern.
- A Rust String is represented by its UTF-8 byte sequence (List Nat);
  String::from_utf8 is modelled by the validity check utf8Valid.
- Fallible decoding returns Except; a Rust panic (unwrap on None) is the
  distinguished error DecodeErr.panicked.
-/

namespace Voyeurs

/-- Protocol version constant from src/proto.rs. -/
def PROTOCOL_VERSION : Nat := 1

/-- The command enum VoyeursCommand of src/proto.rs. String payloads are
UTF-8 byte sequences; f64 payloads are 64-bit patterns. -/
inductive VoyeursCommand where
  | newConnection (name : List Nat)
  | ready (p : Bool)
  | seek (t : Nat)
  | filename (f : List Nat)
  | duration (t : Nat)
  | streamName (n : List Nat)
  | getStreamName
  deriving DecidableEq

/-- Decode-time outcomes of src/proto.rs: UncompatibleProtocolVersion,
UnkownCommand, TooShort, the UTF-8 error propagated from
String::from_utf8, and a Rust panic (for the unwrap in the Ready arm). -/
inductive DecodeErr where
  | uncompatibleProtocolVersion (ver : Nat)
  | unknownCommand (cmd : Nat)
  | tooShort
  | invalidUtf8
  | panicked
  deriving DecidableEq

/-- UTF-8 continuation byte (0x80..0xBF). -/
def isCont (b : Nat) : Bool := 0x80 ≤ b && b ≤ 0xBF

/-- Validity of a byte sequence as UTF-8: the check performed by Rust
String::from_utf8 (rejecting overlong forms, surrogates and values above
U+10FFFF). -/
def utf8Valid : List Nat → Bool
  | [] => true
  | b :: l =>
    if b ≤ 0x7F then utf8Valid l
    else if 0xC2 ≤ b && b ≤ 0xDF then
      match l with
      | b1 :: l2 => isCont b1 && utf8Valid l2
      | [] => false
    else if b == 0xE0 then
      match l with
      | b1 :: b2 :: l2 => (0xA0 ≤ b1 && b1 ≤ 0xBF) && isCont b2 && utf8Valid l2
      | _ => false
    else if (0xE1 ≤ b && b ≤ 0xEC) || (0xEE ≤ b && b ≤ 0xEF) then
      match l with
      | b1 :: b2 :: l2 => isCont b1 && isCont b2 && utf8Valid l2
      | _ => false
    else if b == 0xED then
      match l with
      | b1 :: b2 :: l2 => (0x80 ≤ b1 && b1 ≤ 0x9F) && isCont b2 && utf8Valid l2
      | _ => false
    else if b == 0xF0 then
      match l with
      | b1 :: b2 :: b3 :: l2 =>
        (0x90 ≤ b1 && b1 ≤ 0xBF) && isCont b2 && isCont b3 && utf8Valid l2
      | _ => false
    else if 0xF1 ≤ b && b ≤ 0xF3 then
      match l with
      | b1 :: b2 :: b3 :: l2 => isCont b1 && isCont b2 && isCont b3 && utf8Valid l2
      | _ => false
    else if b == 0xF4 then
      match l with
      | b1 :: b2 :: b3 :: l2 =>
        (0x80 ≤ b1 && b1 ≤ 0x8F) && isCont b2 && isCont b3 && utf8Valid l2
      | _ => false
    else false

/-- Big-endian byte list of a u16 value (u16::to_be_bytes). -/
def u16ToBeBytes (n : Nat) : List Nat := [n / 256 % 256, n % 256]

/-- Big-endian byte list of a 64-bit pattern (f64::to_be_bytes applied to
the bit pattern of the value). -/
def u64ToBeBytes (n : Nat) : List Nat :=
  [n / 72057594037927936 % 256, n / 281474976710656 % 256,
   n / 1099511627776 % 256, n / 4294967296 % 256,
   n / 16777216 % 256, n / 65536 % 256, n / 256 % 256, n % 256]

/-- Big-endian value of a byte list (uXX::from_be_bytes /
f64::from_be_bytes on the bit pattern). -/
def beBytesToNat (l : List Nat) : Nat := l.foldl (fun a b => a * 256 + b) 0

/-- VoyeursCommand::to_bytes from src/proto.rs: the command code and the
argument bytes. -/
def to_bytes : VoyeursCommand → Nat × List Nat
  | .newConnection name => (0x00, u16ToBeBytes PROTOCOL_VERSION ++ name)
  | .ready p => (0x01, [if p then 1 else 0])
  | .seek t => (0x02, u64ToBeBytes t)
  | .filename f => (0x03, f)
  | .duration t => (0x04, u64ToBeBytes t)
  | .streamName n => (0x05, n)
  | .getStreamName => (0x06, [])

/-- VoyeursCommand::from_bytes from src/proto.rs. The 0x00 arm slices the
two version bytes (TooShort on failure), checks the protocol version and
then validates UTF-8; the 0x01 arm mirrors the source unwrap on
args.get(0), so an empty payload panics; the 0x02/0x04 arms slice eight
bytes (TooShort on failure). -/
def from_bytes (cmdCode : Nat) (args : List Nat) : Except DecodeErr VoyeursCommand :=
  match cmdCode with
  | 0x00 =>
    if 2 ≤ args.length then
      let ver := beBytesToNat (args.take 2)
      if ver = PROTOCOL_VERSION then
        if utf8Valid (args.drop 2) then .ok (.newConnection (args.drop 2))
        else .error .invalidUtf8
      else .error (.uncompatibleProtocolVersion ver)
    else .error .tooShort
  | 0x01 =>
    match args with
    | [] => .error .panicked
    | b :: _ => .ok (.ready (b == 1))
  | 0x02 =>
    if 8 ≤ args.length then .ok (.seek (beBytesToNat (args.take 8)))
    else .error .tooShort
  | 0x03 => if utf8Valid args then .ok (.filename args) else .error .invalidUtf8
  | 0x04 =>
    if 8 ≤ args.length then .ok (.duration (beBytesToNat (args.take 8)))
    else .error .tooShort
  | 0x05 => if utf8Valid args then .ok (.streamName args) else .error .invalidUtf8
  | 0x06 => .ok .getStreamName
  | cmd => .error (.unknownCommand cmd)

/-- Constructible command values: string payloads are valid UTF-8 (the
Rust String invariant) and numeric payloads fit in 64 bits. -/
def wellFormed : VoyeursCommand → Bool
  | .newConnection name => utf8Valid name
  | .ready _ => true
  | .seek t => decide (t < 18446744073709551616)
  | .filename f => utf8Valid f
  | .duration t => decide (t < 18446744073709551616)
  | .streamName n => utf8Valid n
  | .getStreamName => true

/-- Modelled from the spec: the well-formed URL check applied to the
player's path in the GetStreamName arm (Url::parse in the source, from an
external crate): a scheme of ASCII letters followed by the colon-slash
separator. Only the empty-versus-nonempty distinction is observed by the
claims. -/
def urlParseOk (path : List Nat) : Bool :=
  match path.splitOn 0x3A with
  | scheme :: rest :: _ =>
    !scheme.isEmpty && scheme.all (fun c => (0x41 ≤ c && c ≤ 0x5A) || (0x61 ≤ c && c ≤ 0x7A))
      && (rest.take 2 == [0x2F, 0x2F])
  | _ => false

/-- Rust char::is_alphanumeric restricted to the ASCII range. The source
check username.chars().all(char::is_alphanumeric) is modelled on ASCII
strings, where chars coincide with bytes and the Unicode alphanumeric
classes with ASCII digits and letters; theorems about usernames quantify
over ASCII byte sequences. -/
def isAsciiAlphanumeric (c : Nat) : Bool :=
  (0x30 ≤ c && c ≤ 0x39) || (0x41 ≤ c && c ≤ 0x5A) || (0x61 ≤ c && c ≤ 0x7A)

/-- The check username.chars().all(char::is_alphanumeric) from
src/client_message_handler.rs, on the byte model of a string. -/
def usernameAllAlphanumeric (name : List Nat) : Bool := name.all isAsciiAlphanumeric

/-- All bytes in the ASCII range: the domain on which the byte model of
the alphanumeric check is faithful. -/
def isAsciiString (name : List Nat) : Bool := name.all (· ≤ 0x7F)

/-- One peer entry of the shared state (struct Peer, declared in the
crate root and used by src/client_message_handler.rs): stored username,
readiness bit and the rolling latency samples. The socket write half is
not part of the pure model; sends are recorded as outputs instead. -/
structure Peer where
  username : List Nat
  ready : Bool
  latency : List Nat
  deriving DecidableEq

/-- The shared room state (struct Shared, declared in the crate root):
the peer map (modelled as an association list keyed by an abstract
address), the one-shot echo-suppression flag ignore_next and the global
readiness bit is_ready. -/
structure Shared where
  peers : List (Nat × Peer)
  ignore_next : Bool
  is_ready : Bool
  deriving DecidableEq

/-- The settings record consumed by src/client_message_handler.rs:
is_serving (hub), accept_source, the local username and standalone. -/
structure Settings where
  is_serving : Bool
  accept_source : Bool
  username : List Nat
  standalone : Bool
  deriving DecidableEq

/-- The observable state of the external mpv player, as read and written
through get_property / set_property / pause / seek by the handlers.
Numeric properties are 64-bit patterns. -/
structure Mpv where
  pause : Bool
  playback_time : Nat
  filename : List Nat
  duration : Nat
  path : List Nat
  deriving DecidableEq

/-- On-screen show-text notifications issued by the handlers, abstracted
to their kind (the format strings of the source). -/
inductive Notice where
  | connected (username : List Nat)
  | disconnected (username : List Nat)
  | somebodyNotReady
  | filenameMismatch
  | durationMismatch
  | serverNotStreaming
  deriving DecidableEq

/-- Player-state commands issued to mpv by the handlers: set_property on
pause, the pause command, an absolute seek, and a load-file instruction
(followed in the source by a wait for the FileLoaded event). -/
inductive PlayerAct where
  | setPause (b : Bool)
  | pauseCmd
  | seekAbs (t : Nat)
  | loadFile (url : List Nat)
  deriving DecidableEq

/-- Lookup in the peer map (HashMap::get on the address key). -/
def lookupPeer : List (Nat × Peer) → Nat → Option Peer
  | [], _ => none
  | q :: t, a => if q.1 == a then some q.2 else lookupPeer t a

/-- In-place mutation of one peer entry. The source uses
peers.get_mut(addr).unwrap(); the model updates the entry when present
(theorems assume the address is present, which handle_connection
guarantees by inserting it on accept). -/
def updatePeer (ps : List (Nat × Peer)) (a : Nat) (f : Peer → Peer) :
    List (Nat × Peer) :=
  ps.map (fun q => if q.1 == a then (q.1, f q.2) else q)

/-- Removal from the peer map (HashMap::remove). -/
def removePeer (ps : List (Nat × Peer)) (a : Nat) : List (Nat × Peer) :=
  ps.filter (fun q => q.1 != a)

/-- peers.values().all(r.ready): unanimity of the tracked peers. -/
def allReady (ps : List (Nat × Peer)) : Bool := ps.all (fun q => q.2.ready)

/-- peers.values().any(not r.ready). -/
def anyNotReady (ps : List (Nat × Peer)) : Bool := ps.any (fun q => !q.2.ready)

/-- Modelled from the spec: the Room unicast primitive Shared::send (the
binary-protocol Shared impl is not under src/, only its callers are);
sending is recorded as an address/command pair. -/
def sendTo (a : Nat) (c : VoyeursCommand) : List (Nat × VoyeursCommand) := [(a, c)]

/-- Modelled from the spec: the Room broadcast primitive Shared::broadcast
— one copy of the command to every connected peer. -/
def broadcast (ps : List (Nat × Peer)) (c : VoyeursCommand) :
    List (Nat × VoyeursCommand) :=
  ps.map (fun q => (q.1, c))

/-- Modelled from the spec: Shared::broadcast_excluding — one copy of the
command to every connected peer except the given address. -/
def broadcastExcluding (ps : List (Nat × Peer)) (c : VoyeursCommand) (a : Nat) :
    List (Nat × VoyeursCommand) :=
  (ps.filter (fun q => q.1 != a)).map (fun q => (q.1, c))

/-- MAX_QUEUE_LATENCY from src/time.rs. -/
def MAX_QUEUE_LATENCY : Nat := 10

/-- The latency bookkeeping at the top of the receive loop of
src/client_message_handler.rs: pop the back when the queue is full, push
the new sample at the front. -/
def pushLatency (s : Shared) (addr tDelta : Nat) : Shared :=
  { s with
    peers := updatePeer s.peers addr (fun p =>
      { p with
        latency := tDelta ::
          (if p.latency.length == MAX_QUEUE_LATENCY then p.latency.dropLast
           else p.latency) }) }

/-- The outcome of one dispatch step of the receive loop: the updated
shared state and player state, the protocol messages sent (in order), the
on-screen notices shown, the player commands issued, and whether the loop
breaks (the session closes). -/
structure StepResult where
  shared : Shared
  mpv : Mpv
  sent : List (Nat × VoyeursCommand)
  notices : List Notice
  actions : List PlayerAct
  closed : Bool
  deriving DecidableEq

/-- A step result that changes nothing and keeps the session open. -/
def noopStep (s : Shared) (mpv : Mpv) : StepResult :=
  { shared := s, mpv := mpv, sent := [], notices := [], actions := [], closed := false }

/-- The dispatch on one decoded command in the receive loop of
src/client_message_handler.rs (the match on packet.command inside
handle_connection), for the session of the given peer address. -/
def handle_connection_step (settings : Settings) (addr : Nat)
    (cmd : VoyeursCommand) (s : Shared) (mpv : Mpv) : StepResult :=
  match cmd with
  | .ready p =>
    if settings.standalone then
      let flip := mpv.pause == p
      { shared := if flip then { s with ignore_next := true } else s,
        mpv := if flip then { mpv with pause := !p } else mpv,
        sent := if settings.is_serving then broadcast s.peers (.ready p) else [],
        notices := [],
        actions := if flip then [.setPause (!p)] else [],
        closed := false }
    else
      let peers1 := updatePeer s.peers addr (fun q => { q with ready := p })
      match p with
      | false =>
        let doPause := !mpv.pause
        { shared :=
            { s with
              peers := peers1,
              ignore_next := if doPause then true else s.ignore_next },
          mpv := if doPause then { mpv with pause := true } else mpv,
          sent :=
            if settings.is_serving then broadcastExcluding peers1 (.ready false) addr
            else [],
          notices := [],
          actions := if doPause then [.setPause true] else [],
          closed := false }
      | true =>
        let cond := s.is_ready && allReady peers1
        let doUnpause := cond && mpv.pause
        { shared :=
            { s with
              peers := peers1,
              ignore_next := if doUnpause then true else s.ignore_next },
          mpv := if doUnpause then { mpv with pause := false } else mpv,
          sent :=
            if cond && settings.is_serving then broadcast peers1 (.ready true)
            else [],
          notices := [],
          actions := if doUnpause then [.setPause false] else [],
          closed := false }
  | .seek t =>
    if t != mpv.playback_time then
      { shared := { s with ignore_next := true },
        mpv := { mpv with playback_time := t },
        sent :=
          if settings.is_serving then broadcastExcluding s.peers (.seek t) addr
          else [],
        notices := [],
        actions := [.seekAbs t],
        closed := false }
    else noopStep s mpv
  | .newConnection username =>
    if !usernameAllAlphanumeric username then
      { shared := s, mpv := mpv, sent := [], notices := [], actions := [],
        closed := true }
    else
      let mpv2 := { mpv with pause := true }
      { shared :=
          { s with
            peers := updatePeer s.peers addr (fun q => { q with username := username }) },
        mpv := mpv2,
        sent := sendTo addr (.filename mpv2.filename)
          ++ sendTo addr (.duration mpv2.duration)
          ++ sendTo addr (.seek mpv2.playback_time)
          ++ sendTo addr (.ready (!mpv2.pause)),
        notices := [.connected username],
        actions := [.pauseCmd],
        closed := false }
  | .getStreamName =>
    if settings.is_serving then
      let streamname := if urlParseOk mpv.path then mpv.path else []
      { noopStep s mpv with sent := sendTo addr (.streamName streamname) }
    else noopStep s mpv
  | .streamName stream =>
    if settings.accept_source then
      { shared := s,
        mpv := mpv,
        sent := sendTo addr (.newConnection settings.username),
        notices := if stream.isEmpty then [.serverNotStreaming] else [],
        actions := [.loadFile stream],
        closed := false }
    else noopStep s mpv
  | .filename f =>
    { noopStep s mpv with
      notices := if f == mpv.filename then [] else [.filenameMismatch] }
  | .duration t =>
    { noopStep s mpv with
      notices := if t == mpv.duration then [] else [.durationMismatch] }

/-- One read outcome of the receive loop: a decoded packet (with the
computed timestamp delta) or a read/decode failure. -/
inductive ReadResult where
  | ok (tDelta : Nat) (cmd : VoyeursCommand)
  | err
  deriving DecidableEq

/-- One full iteration of the receive loop of
src/client_message_handler.rs: on a decoded packet, push the latency
sample and dispatch; on a read or decode failure, remove the peer from
the room, show the disconnect notice and break. -/
def session_step (settings : Settings) (addr : Nat) (r : ReadResult)
    (s : Shared) (mpv : Mpv) : StepResult :=
  match r with
  | .ok d cmd => handle_connection_step settings addr cmd (pushLatency s addr d) mpv
  | .err =>
    let uname := match lookupPeer s.peers addr with
      | some p => p.username
      | none => []
    { shared := { s with peers := removePeer s.peers addr },
      mpv := mpv,
      sent := [],
      notices := [.disconnected uname],
      actions := [],
      closed := true }

/-- The mpv events consumed by the bridge loop of
src/mpv_event_handler.rs (the arms of the source marked todo are not
reachable for the observed properties and are omitted). -/
inductive MpvEvent where
  | shutdown
  | endFile
  | pauseChange (p : Bool)
  | seekingChange (b : Bool)
  | other
  deriving DecidableEq

/-- The outcome of one iteration of the bridge loop: updated shared and
player state, messages broadcast, notices, player commands, and whether
the process exits (Shutdown / EndFile). -/
structure BridgeResult where
  shared : Shared
  mpv : Mpv
  sent : List (Nat × VoyeursCommand)
  notices : List Notice
  actions : List PlayerAct
  exited : Bool
  deriving DecidableEq

/-- A bridge result that changes nothing. -/
def noopBridge (s : Shared) (mpv : Mpv) : BridgeResult :=
  { shared := s, mpv := mpv, sent := [], notices := [], actions := [],
    exited := false }

/-- One iteration of handle_mpv_event from src/mpv_event_handler.rs: if
ignore_next is set, clear it and discard the event; otherwise dispatch on
the event kind. In the local-unpause arm the source shows the notice,
sets ignore_next and then issues the pause command before broadcasting
Ready true. -/
def handle_mpv_event_step (standalone : Bool) (ev : MpvEvent)
    (s : Shared) (mpv : Mpv) : BridgeResult :=
  if s.ignore_next then
    { noopBridge { s with ignore_next := false } mpv with sent := [] }
  else
    match ev with
    | .shutdown => { noopBridge s mpv with exited := true }
    | .endFile => { noopBridge s mpv with exited := true }
    | .pauseChange p =>
      if standalone then
        { noopBridge s mpv with sent := broadcast s.peers (.ready (!p)) }
      else
        let s1 := { s with is_ready := !p }
        if p then
          { noopBridge s1 mpv with sent := broadcast s1.peers (.ready false) }
        else
          let bad := anyNotReady s1.peers
          { shared := if bad then { s1 with ignore_next := true } else s1,
            mpv := if bad then { mpv with pause := true } else mpv,
            sent := broadcast s1.peers (.ready true),
            notices := if bad then [.somebodyNotReady] else [],
            actions := if bad then [.pauseCmd] else [],
            exited := false }
    | .seekingChange b =>
      if b then noopBridge s mpv
      else { noopBridge s mpv with sent := broadcast s.peers (.seek mpv.playback_time) }
    | .other => noopBridge s mpv

/-- A peer entry that has voted ready. -/
def basePeer : Peer := { username := [], ready := true, latency := [] }

/-- A peer entry that has voted not ready. -/
def notReadyPeer : Peer := { username := [], ready := false, latency := [] }

/-- A paused player at position zero. -/
def baseMpvPaused : Mpv :=
  { pause := true, playback_time := 0, filename := [], duration := 0, path := [] }

/-- An unpaused player at position zero. -/
def baseMpvPlaying : Mpv := { baseMpvPaused with pause := false }

/-- A plain client configuration (not hub, not source-accepting, not
standalone, username "user"). -/
def clientSettings : Settings :=
  { is_serving := false, accept_source := false,
    username := [117, 115, 101, 114], standalone := false }

/-- A source-accepting client configuration. -/
def acceptSettings : Settings :=
  { is_serving := false, accept_source := true,
    username := [117, 115, 101, 114], standalone := false }

/-- A room with a single ready peer at address 1 and the global readiness
bit unset. -/
def onePeerShared : Shared :=
  { peers := [(1, basePeer)], ignore_next := false, is_ready := false }

/-- A room with a single not-ready peer at address 1. -/
def oneNotReadyShared : Shared :=
  { peers := [(1, notReadyPeer)], ignore_next := false, is_ready := false }

/-- A room with three ready peers (addresses 1, 2, 3) and the global
readiness bit set, for the barrier scenario. -/
def threePeersShared : Shared :=
  { peers := [(1, basePeer), (2, basePeer), (3, basePeer)],
    ignore_next := false, is_ready := true }

/-- Barrier scenario, step 1: peer 1 reports Ready false. -/
def c1Step1 : StepResult :=
  handle_connection_step clientSettings 1 (.ready false) threePeersShared baseMpvPaused

/-- Barrier scenario, step 2: peer 2 reports Ready true. -/
def c1Step2 : StepResult :=
  handle_connection_step clientSettings 2 (.ready true) c1Step1.shared c1Step1.mpv

/-- Barrier scenario, step 3: peer 3 reports Ready true. -/
def c1Step3 : StepResult :=
  handle_connection_step clientSettings 3 (.ready true) c1Step2.shared c1Step2.mpv

/-- Barrier scenario, step 4: peer 1 finally reports Ready true. -/
def c1Step4 : StepResult :=
  handle_connection_step clientSettings 1 (.ready true) c1Step3.shared c1Step3.mpv

/-- A room state with the echo-suppression flag set. -/
def suppressedShared : Shared :=
  { peers := [(1, basePeer)], ignore_next := true, is_ready := false }

theorem beBytesToNat_u64 (n : Nat) (h : n < 18446744073709551616) :
    beBytesToNat (u64ToBeBytes n) = n := by
  simp [beBytesToNat, u64ToBeBytes, List.foldl]
  omega

theorem u64ToBeBytes_length (n : Nat) : (u64ToBeBytes n).length = 8 := by
  simp [u64ToBeBytes]

/-- C2: codec round trip — for every constructible command value,
from_bytes applied to the command code and argument bytes produced by
to_bytes succeeds and returns the same command. -/
theorem roundtrip_decode_encode (c : VoyeursCommand) (h : wellFormed c = true) :
    from_bytes (to_bytes c).1 (to_bytes c).2 = .ok c := by
  cases c with
  | newConnection name =>
    simp [wellFormed] at h
    simp [to_bytes, from_bytes, u16ToBeBytes, PROTOCOL_VERSION, beBytesToNat, h]
  | ready p =>
    cases p <;> simp [to_bytes, from_bytes]
  | seek t =>
    simp [wellFormed] at h
    simp [to_bytes, from_bytes, u64ToBeBytes_length, List.take_of_length_le,
      beBytesToNat_u64 t h]
  | filename f =>
    simp [wellFormed] at h
    simp [to_bytes, from_bytes, h]
  | duration t =>
    simp [wellFormed] at h
    simp [to_bytes, from_bytes, u64ToBeBytes_length, List.take_of_length_le,
      beBytesToNat_u64 t h]
  | streamName n =>
    simp [wellFormed] at h
    simp [to_bytes, from_bytes, h]
  | getStreamName =>
    simp [to_bytes, from_bytes]

/-- C2 witness: round trip at a concrete constructible command. -/
theorem roundtrip_decode_encode_witness :
    from_bytes (to_bytes (.newConnection [98, 111, 98])).1
      (to_bytes (.newConnection [98, 111, 98])).2 = .ok (.newConnection [98, 111, 98]) :=
  roundtrip_decode_encode (.newConnection [98, 111, 98]) (by decide)

/-- C3: decoding with a payload shorter than the fixed-size field —
NewConnection (two version bytes) and Seek/Duration (eight double bytes)
return the TooShort error, but the Ready arm panics on an empty payload
(unwrap on None) instead of returning TooShort. -/
theorem decode_short_payload (args : List Nat) :
    (args.length < 2 → from_bytes 0 args = .error .tooShort)
    ∧ (args.length < 8 → from_bytes 2 args = .error .tooShort)
    ∧ (args.length < 8 → from_bytes 4 args = .error .tooShort)
    ∧ from_bytes 1 [] = .error .panicked := by
  refine ⟨fun h => ?_, fun h => ?_, fun h => ?_, rfl⟩ <;>
    simp [from_bytes] <;> omega

/-- C3 witness: short payloads at concrete inputs. -/
theorem decode_short_payload_witness :
    (from_bytes 0 [9] = .error .tooShort)
    ∧ (from_bytes 2 [1, 2, 3] = .error .tooShort)
    ∧ (from_bytes 4 [] = .error .tooShort)
    ∧ from_bytes 1 [] = .error .panicked :=
  ⟨(decode_short_payload [9]).1 (by decide),
   (decode_short_payload [1, 2, 3]).2.1 (by decide),
   (decode_short_payload []).2.2.1 (by decide),
   (decode_short_payload []).2.2.2⟩

/-- C10: lenient Ready decoding — for every non-empty payload, decoding
command code 0x01 succeeds, yielding Ready true exactly when the first
byte equals 1 and Ready false for every other first byte value. -/
theorem ready_decode_lenient :
    (∀ rest : List Nat, from_bytes 1 (1 :: rest) = .ok (.ready true))
    ∧ (∀ (b : Nat) (rest : List Nat), b < 256 → b ≠ 1 →
        from_bytes 1 (b :: rest) = .ok (.ready false)) := by
  constructor
  · intro rest
    simp [from_bytes]
  · intro b rest _ hb
    simp [from_bytes, hb]

/-- C10 witness: Ready decoding at concrete payloads, including a first
byte outside the declared 0/1 wire domain. -/
theorem ready_decode_lenient_witness :
    from_bytes 1 [1, 7] = .ok (.ready true) ∧ from_bytes 1 [2] = .ok (.ready false) :=
  ⟨ready_decode_lenient.1 [7],
   ready_decode_lenient.2 2 [] (by decide) (by decide)⟩

theorem lookupPeer_updatePeer (ps : List (Nat × Peer)) (a : Nat) (f : Peer → Peer) :
    lookupPeer (updatePeer ps a f) a = (lookupPeer ps a).map f := by
  induction ps with
  | nil => rfl
  | cons q t ih =>
    show lookupPeer ((if q.1 == a then (q.1, f q.2) else q) :: updatePeer t a f) a
        = Option.map f (lookupPeer (q :: t) a)
    cases h : (q.1 == a) with
    | true => simp [lookupPeer, h]
    | false =>
      simp only [h, Bool.false_eq_true, if_false, lookupPeer]
      rw [ih]

theorem lookupPeer_removePeer (ps : List (Nat × Peer)) (a : Nat) :
    lookupPeer (removePeer ps a) a = none := by
  induction ps with
  | nil => rfl
  | cons q t ih =>
    by_cases h : q.1 = a
    · simpa [removePeer, lookupPeer, h] using ih
    · simpa [removePeer, lookupPeer, h] using ih

/-- C1: readiness barrier (unanimity) — on Ready true from a peer in a
non-standalone session, the sender is recorded ready, and a paused local
player is unpaused exactly when the global readiness bit is set and every
tracked peer (after the update) is ready; in the three-peer scenario
where peer 1 voted Ready false, the Ready true votes of peers 2 and 3
never unpause the player (no set-pause-false command at all), and the
final Ready true of peer 1 unpauses it exactly once. -/
theorem ready_true_barrier (settings : Settings) (addr : Nat) (s : Shared)
    (mpv : Mpv) (hstand : settings.standalone = false)
    (hmem : (lookupPeer s.peers addr).isSome = true) :
    ((lookupPeer (handle_connection_step settings addr (.ready true) s mpv).shared.peers
        addr).map Peer.ready = some true)
    ∧ (mpv.pause = true →
        ((handle_connection_step settings addr (.ready true) s mpv).mpv.pause = false
          ↔ (s.is_ready
              && allReady (updatePeer s.peers addr (fun q => { q with ready := true })))
            = true))
    ∧ (c1Step2.mpv.pause = true ∧ c1Step3.mpv.pause = true
        ∧ (c1Step1.actions ++ c1Step2.actions ++ c1Step3.actions).count
            (.setPause false) = 0
        ∧ c1Step4.mpv.pause = false
        ∧ c1Step4.actions.count (.setPause false) = 1) := by
  refine ⟨?_, ?_, by decide⟩
  · simp only [handle_connection_step, hstand, Bool.false_eq_true, if_false,
      lookupPeer_updatePeer]
    cases hq : lookupPeer s.peers addr with
    | none => rw [hq] at hmem; simp at hmem
    | some p => simp
  · intro hp
    simp only [handle_connection_step, hstand, Bool.false_eq_true, if_false]
    cases hc : s.is_ready && allReady (updatePeer s.peers addr
        (fun q => { q with ready := true })) <;>
      simp [hc, hp]

/-- C1 witness: the barrier theorem applied to the concrete three-peer
scenario state (the general recording conclusion at address 1). -/
theorem ready_true_barrier_witness :
    (lookupPeer (handle_connection_step clientSettings 1 (.ready true)
        threePeersShared baseMpvPaused).shared.peers 1).map Peer.ready = some true :=
  (ready_true_barrier clientSettings 1 threePeersShared baseMpvPaused rfl
    (by decide)).1

/-- C4: echo suppression is one-shot — every inbound command that changes
the local player state sets ignore_next: a Seek with a position that
differs from the current one, a Ready false while the player is unpaused,
a Ready true that satisfies the barrier while the player is paused, and
the standalone Ready flip when the flag matches the current pause state;
the bridge, seeing the flag set, clears it and discards the event without
any broadcast, notice or player command; and with the flag clear a
subsequent seek-completed event is broadcast normally. -/
theorem echo_suppression_one_shot :
    (∀ (settings : Settings) (addr : Nat) (s : Shared) (mpv : Mpv) (t : Nat),
        t ≠ mpv.playback_time →
        (handle_connection_step settings addr (.seek t) s mpv).shared.ignore_next
          = true)
    ∧ (∀ (settings : Settings) (addr : Nat) (s : Shared) (mpv : Mpv),
        settings.standalone = false → mpv.pause = false →
        (handle_connection_step settings addr (.ready false) s mpv).shared.ignore_next
          = true)
    ∧ (∀ (settings : Settings) (addr : Nat) (s : Shared) (mpv : Mpv),
        settings.standalone = false → mpv.pause = true →
        (s.is_ready
            && allReady (updatePeer s.peers addr (fun q => { q with ready := true })))
          = true →
        (handle_connection_step settings addr (.ready true) s mpv).shared.ignore_next
          = true)
    ∧ (∀ (settings : Settings) (addr : Nat) (s : Shared) (mpv : Mpv) (p : Bool),
        settings.standalone = true → mpv.pause = p →
        (handle_connection_step settings addr (.ready p) s mpv).shared.ignore_next
          = true)
    ∧ (∀ (standalone : Bool) (ev : MpvEvent) (s : Shared) (mpv : Mpv),
        s.ignore_next = true →
        handle_mpv_event_step standalone ev s mpv =
          { shared := { s with ignore_next := false }, mpv := mpv, sent := [],
            notices := [], actions := [], exited := false })
    ∧ (∀ (standalone : Bool) (s : Shared) (mpv : Mpv),
        s.ignore_next = false →
        (handle_mpv_event_step standalone (.seekingChange false) s mpv).sent =
          broadcast s.peers (.seek mpv.playback_time)) := by
  refine ⟨?_, ?_, ?_, ?_, ?_, ?_⟩
  · intro settings addr s mpv t ht
    simp [handle_connection_step, bne_iff_ne, ht]
  · intro settings addr s mpv hstand hp
    simp [handle_connection_step, hstand, hp]
  · intro settings addr s mpv hstand hp hcond
    simp [handle_connection_step, hstand, hp, hcond]
  · intro settings addr s mpv p hstand hp
    simp [handle_connection_step, hstand, hp]
  · intro standalone ev s mpv h
    simp [handle_mpv_event_step, h, noopBridge]
  · intro standalone s mpv h
    simp [handle_mpv_event_step, h, noopBridge]

/-- C4 witness: the barrier-satisfying Ready true at the concrete
three-peer room sets the flag, and the suppressed bridge step at a
concrete state clears it and emits nothing. -/
theorem echo_suppression_one_shot_witness :
    (handle_connection_step clientSettings 1 (.ready true) threePeersShared
        baseMpvPaused).shared.ignore_next = true
    ∧ handle_mpv_event_step false .other suppressedShared baseMpvPaused =
        { shared := { suppressedShared with ignore_next := false },
          mpv := baseMpvPaused, sent := [], notices := [], actions := [],
          exited := false } :=
  ⟨echo_suppression_one_shot.2.2.1 clientSettings 1 threePeersShared baseMpvPaused
      rfl rfl (by decide),
   echo_suppression_one_shot.2.2.2.2.1 false .other suppressedShared baseMpvPaused
      rfl⟩

/-- C5 counterexample: local unpause with one not-ready peer — the player
is re-paused (ultimately still paused) yet the broadcast sent is Ready
true, not the Ready false the claim requires in that case. -/
theorem local_unpause_counterexample :
    (handle_mpv_event_step false (.pauseChange false) oneNotReadyShared
        baseMpvPlaying).mpv.pause = true
    ∧ (handle_mpv_event_step false (.pauseChange false) oneNotReadyShared
        baseMpvPlaying).sent = [(1, .ready true)] := by
  decide

/-- C5 amended: on a local unpause (non-standalone, suppression clear) the
global readiness bit is set; if some tracked peer is not ready, the
somebody-is-not-ready notice is shown and the player is re-paused with
ignore_next set first; and in all cases — even when ultimately still
paused — Ready true is broadcast to every peer (Ready false is never sent
here: the re-pause event is echo-suppressed). -/
theorem local_unpause_transition (s : Shared) (mpv : Mpv)
    (h : s.ignore_next = false) :
    ((handle_mpv_event_step false (.pauseChange false) s mpv).shared.is_ready = true)
    ∧ (anyNotReady s.peers = true →
        (handle_mpv_event_step false (.pauseChange false) s mpv).notices
            = [.somebodyNotReady]
        ∧ (handle_mpv_event_step false (.pauseChange false) s mpv).shared.ignore_next
            = true
        ∧ (handle_mpv_event_step false (.pauseChange false) s mpv).mpv.pause = true
        ∧ (handle_mpv_event_step false (.pauseChange false) s mpv).actions
            = [.pauseCmd])
    ∧ (anyNotReady s.peers = false →
        (handle_mpv_event_step false (.pauseChange false) s mpv).mpv = mpv
        ∧ (handle_mpv_event_step false (.pauseChange false) s mpv).shared.ignore_next
            = false)
    ∧ (handle_mpv_event_step false (.pauseChange false) s mpv).sent
        = broadcast s.peers (.ready true) := by
  cases hb : anyNotReady s.peers <;>
    simp [handle_mpv_event_step, h, hb, noopBridge]

/-- C5 witness: the amended transition applied at the one-not-ready room.
-/
theorem local_unpause_transition_witness :
    (handle_mpv_event_step false (.pauseChange false) oneNotReadyShared
        baseMpvPlaying).shared.is_ready = true :=
  (local_unpause_transition oneNotReadyShared baseMpvPlaying rfl).1

/-- C6 counterexample: a session that terminates by username rejection
(NewConnection with a non-alphanumeric username) breaks the loop with the
peer entry still present in the room, violating the removal invariant. -/
theorem peer_lifetime_counterexample :
    (session_step clientSettings 1 (.ok 0 (.newConnection [98, 111, 98, 33]))
        onePeerShared baseMpvPaused).closed = true
    ∧ (lookupPeer (session_step clientSettings 1
        (.ok 0 (.newConnection [98, 111, 98, 33]))
        onePeerShared baseMpvPaused).shared.peers 1).isSome = true := by
  decide

/-- C6 amended: on a read or decode failure the loop closes and the peer
entry is removed from the room; on username rejection the loop closes but
the entry is retained (only its latency queue was touched), so the
removal invariant holds for the failure path only. -/
theorem peer_removed_on_error (settings : Settings) (addr : Nat) (s : Shared)
    (mpv : Mpv) :
    ((session_step settings addr .err s mpv).closed = true
      ∧ lookupPeer (session_step settings addr .err s mpv).shared.peers addr = none)
    ∧ (∀ (d : Nat) (name : List Nat), usernameAllAlphanumeric name = false →
        (session_step settings addr (.ok d (.newConnection name)) s mpv).closed = true
        ∧ (lookupPeer (session_step settings addr (.ok d (.newConnection name)) s
              mpv).shared.peers addr).isSome
            = (lookupPeer s.peers addr).isSome) := by
  constructor
  · exact ⟨rfl, by simp [session_step, lookupPeer_removePeer]⟩
  · intro d name hname
    refine ⟨?_, ?_⟩
    · simp [session_step, handle_connection_step, hname]
    · simp [session_step, handle_connection_step, hname, pushLatency,
        lookupPeer_updatePeer]

/-- C6 witness: the amended theorem at concrete inputs — removal on a read
failure, retention on a rejected username. -/
theorem peer_removed_on_error_witness :
    lookupPeer (session_step clientSettings 1 .err onePeerShared
        baseMpvPaused).shared.peers 1 = none
    ∧ (session_step clientSettings 1 (.ok 0 (.newConnection [98, 111, 98, 33]))
        onePeerShared baseMpvPaused).closed = true :=
  ⟨(peer_removed_on_error clientSettings 1 onePeerShared baseMpvPaused).1.2,
   ((peer_removed_on_error clientSettings 1 onePeerShared baseMpvPaused).2 0
      [98, 111, 98, 33] (by decide)).1⟩

/-- C7: NewConnection join sequence — on an all-alphanumeric (ASCII)
username the session stays open, the player is paused, the connected
notice naming the sender is shown, the username is stored on the session,
and exactly Filename, Duration, Seek (current position) and Ready are
sent back to the sender in that order; the Ready flag is the negation of
the paused state as read after the pause command, hence false. -/
theorem new_connection_join (settings : Settings) (addr : Nat) (s : Shared)
    (mpv : Mpv) (name : List Nat)
    (hname : usernameAllAlphanumeric name = true)
    (hmem : (lookupPeer s.peers addr).isSome = true) :
    (handle_connection_step settings addr (.newConnection name) s mpv).closed = false
    ∧ (handle_connection_step settings addr (.newConnection name) s mpv).mpv.pause
        = true
    ∧ (handle_connection_step settings addr (.newConnection name) s mpv).actions
        = [.pauseCmd]
    ∧ (handle_connection_step settings addr (.newConnection name) s mpv).notices
        = [.connected name]
    ∧ (lookupPeer (handle_connection_step settings addr (.newConnection name) s
          mpv).shared.peers addr).map Peer.username = some name
    ∧ (handle_connection_step settings addr (.newConnection name) s mpv).sent
        = [(addr, .filename mpv.filename), (addr, .duration mpv.duration),
           (addr, .seek mpv.playback_time), (addr, .ready false)] := by
  refine ⟨?_, ?_, ?_, ?_, ?_, ?_⟩
  · simp [handle_connection_step, hname]
  · simp [handle_connection_step, hname]
  · simp [handle_connection_step, hname]
  · simp [handle_connection_step, hname]
  · simp only [handle_connection_step, hname, Bool.not_true, Bool.false_eq_true,
      if_false, lookupPeer_updatePeer]
    cases hq : lookupPeer s.peers addr with
    | none => rw [hq] at hmem; simp at hmem
    | some p => simp
  · simp [handle_connection_step, hname, sendTo]

/-- C7 witness: the join sequence for the concrete username "bob2" at the
one-peer room. -/
theorem new_connection_join_witness :
    (handle_connection_step clientSettings 1 (.newConnection [98, 111, 98, 50])
        onePeerShared baseMpvPaused).sent
      = [(1, .filename baseMpvPaused.filename),
         (1, .duration baseMpvPaused.duration),
         (1, .seek baseMpvPaused.playback_time), (1, .ready false)] :=
  (new_connection_join clientSettings 1 onePeerShared baseMpvPaused
    [98, 111, 98, 50] (by decide) (by decide)).2.2.2.2.2

/-- C8: empty StreamName is not a no-op — with accept_source set, an empty
url produces the warning but the load instruction is still issued for the
empty url and NewConnection is still sent afterwards (the source if has
no else); a non-empty url loads and sends NewConnection as the claim
says, without the warning. -/
theorem stream_name_empty_not_noop :
    ((handle_connection_step acceptSettings 1 (.streamName []) onePeerShared
        baseMpvPaused).notices = [.serverNotStreaming]
      ∧ (handle_connection_step acceptSettings 1 (.streamName []) onePeerShared
          baseMpvPaused).actions = [.loadFile []]
      ∧ (handle_connection_step acceptSettings 1 (.streamName []) onePeerShared
          baseMpvPaused).sent = [(1, .newConnection acceptSettings.username)])
    ∧ (∀ stream : List Nat, stream ≠ [] →
        (handle_connection_step acceptSettings 1 (.streamName stream) onePeerShared
            baseMpvPaused).actions = [.loadFile stream]
        ∧ (handle_connection_step acceptSettings 1 (.streamName stream) onePeerShared
            baseMpvPaused).sent = [(1, .newConnection acceptSettings.username)]
        ∧ (handle_connection_step acceptSettings 1 (.streamName stream) onePeerShared
            baseMpvPaused).notices = []) := by
  constructor
  · exact ⟨rfl, rfl, rfl⟩
  · intro stream hs
    refine ⟨?_, ?_, ?_⟩ <;>
      simp [handle_connection_step, acceptSettings, sendTo, noopStep,
        List.isEmpty_iff, hs]

/-- C8 witness: the non-empty arm of the StreamName theorem at a concrete
url. -/
theorem stream_name_empty_not_noop_witness :
    (handle_connection_step acceptSettings 1 (.streamName [104]) onePeerShared
        baseMpvPaused).actions = [.loadFile [104]] :=
  (stream_name_empty_not_noop.2 [104] (by decide)).1

/-- C9: username validation — a NewConnection whose username contains a
non-alphanumeric character closes the connection with no reply, notice or
player command, and the concrete username bob! is such a value; an
all-alphanumeric username (such as bob2) keeps the session open and is
processed normally (replies are sent). -/
theorem username_validation (settings : Settings) (addr : Nat) (s : Shared)
    (mpv : Mpv) (name : List Nat) :
    (usernameAllAlphanumeric name = false →
      (handle_connection_step settings addr (.newConnection name) s mpv).closed = true
      ∧ (handle_connection_step settings addr (.newConnection name) s mpv).sent = []
      ∧ (handle_connection_step settings addr (.newConnection name) s mpv).actions = []
      ∧ (handle_connection_step settings addr (.newConnection name) s mpv).notices = [])
    ∧ (usernameAllAlphanumeric name = true →
      (handle_connection_step settings addr (.newConnection name) s mpv).closed = false
      ∧ (handle_connection_step settings addr (.newConnection name) s mpv).sent ≠ [])
    ∧ usernameAllAlphanumeric [98, 111, 98, 50] = true
    ∧ usernameAllAlphanumeric [98, 111, 98, 33] = false := by
  refine ⟨fun h => ?_, fun h => ?_, by decide, by decide⟩
  · simp [handle_connection_step, h]
  · simp [handle_connection_step, h, sendTo]

/-- C9 witness: rejection of bob! closes the connection with no reply;
bob2 keeps it open. -/
theorem username_validation_witness :
    ((handle_connection_step clientSettings 1 (.newConnection [98, 111, 98, 33])
        onePeerShared baseMpvPaused).closed = true
      ∧ (handle_connection_step clientSettings 1 (.newConnection [98, 111, 98, 33])
          onePeerShared baseMpvPaused).sent = []
      ∧ (handle_connection_step clientSettings 1 (.newConnection [98, 111, 98, 33])
          onePeerShared baseMpvPaused).actions = []
      ∧ (handle_connection_step clientSettings 1 (.newConnection [98, 111, 98, 33])
          onePeerShared baseMpvPaused).notices = [])
    ∧ (handle_connection_step clientSettings 1 (.newConnection [98, 111, 98, 50])
        onePeerShared baseMpvPaused).closed = false :=
  ⟨(username_validation clientSettings 1 onePeerShared baseMpvPaused
      [98, 111, 98, 33]).1 (by decide),
   ((username_validation clientSettings 1 onePeerShared baseMpvPaused
      [98, 111, 98, 50]).2.1 (by decide)).1⟩

end Voyeurs
